import Mathlib

/-!
Shallow embedding of the Doc_chat retrieval-augmented chat backend:
`backend/backend2.py`, `backend/utils/chat/chat2.py` and
`backend/utils/chat/chat4.py`.

External collaborators (the ollama embedding and chat calls, the chromadb
document store) are modelled as explicit outcome parameters; every external
call the code makes is recorded in a trace of `Event` values.  The Python
stable `list.sort(key=lambda x: x[0])` is modelled by `List.insertionSort`
ordered by first component: both are stable ascending sorts by the
distance key, and a stable sort is extensionally determined by the key
order, so the two agree on every input.
-/

namespace Chat2

/-- One collection result as consumed by `combine_and_select_top_chunks`
in chat2.py: the first row of the `distances` and `documents` fields
returned by `collection.query`. -/
structure QueryResult where
  distances : List ℚ
  documents : List String
  deriving DecidableEq

/-- The flattening loop of `combine_and_select_top_chunks` (chat2.py lines
77 to 81): `combined_results.extend(zip(distances, documents))` over every
result of `results_list`. -/
def combineTriples (rl : List QueryResult) : List (ℚ × String) :=
  rl.flatMap (fun r => r.distances.zip r.documents)

/-- Total number of fragments across all inputs, counted on the distance
lists. -/
def totalFragments (rl : List QueryResult) : ℕ :=
  (rl.map (fun r => r.distances.length)).sum

end Chat2

/-- The sort key of `combined_results.sort(key=lambda x: x[0])`: compare
two (distance, text) pairs by distance only. -/
def distLE (a b : ℚ × String) : Prop := a.1 ≤ b.1

instance : DecidableRel distLE := fun a b => inferInstanceAs (Decidable (a.1 ≤ b.1))

instance : IsTotal (ℚ × String) distLE := ⟨fun a b => le_total a.1 b.1⟩

instance : IsTrans (ℚ × String) distLE := ⟨fun _ _ _ => le_trans⟩

namespace Chat2

/-- chat2.py line 84: the stable ascending sort of the flattened results
by distance. -/
def combinedSorted (rl : List QueryResult) : List (ℚ × String) :=
  (combineTriples rl).insertionSort distLE

/-- chat2.py `combine_and_select_top_chunks`: flatten, stable-sort by
distance, keep the first `top_n` entries, return their document texts.
The Python default for `top_n` is 7. -/
def combine_and_select_top_chunks (rl : List QueryResult) (top_n : ℕ) : List String :=
  ((combinedSorted rl).take top_n).map Prod.snd

end Chat2

/-- The sort key for the chat4.py variant, which carries (distance, text,
collection name) triples. -/
def distLE3 (a b : ℚ × String × String) : Prop := a.1 ≤ b.1

instance : DecidableRel distLE3 := fun a b => inferInstanceAs (Decidable (a.1 ≤ b.1))

namespace Chat4

/-- One element of `results_list` in chat4.py `get_chat_response`: the
queried collection name together with its query result. -/
structure NamedResult where
  collection_name : String
  results : Chat2.QueryResult
  deriving DecidableEq

/-- The flattening loop of chat4.py `combine_and_select_top_chunks` (lines
129 to 135): `zip(distances, documents, [collection_name]*len(documents))`
over every named result. -/
def combineTriples (rl : List NamedResult) : List (ℚ × String × String) :=
  rl.flatMap (fun r =>
    r.results.distances.zip
      (r.results.documents.zip
        (List.replicate r.results.documents.length r.collection_name)))

/-- chat4.py line 138: the stable ascending sort of the flattened triples
by distance. -/
def combinedSorted (rl : List NamedResult) : List (ℚ × String × String) :=
  (combineTriples rl).insertionSort distLE3

/-- chat4.py `combine_and_select_top_chunks`: the `top_n` best document
texts together with their source collection names. -/
def combine_and_select_top_chunks (rl : List NamedResult) (top_n : ℕ) :
    List String × List String :=
  (((combinedSorted rl).take top_n).map (fun t => t.2.1),
   ((combinedSorted rl).take top_n).map (fun t => t.2.2))

/-- One record of the chat4.py `message_history` list. -/
structure MessageEntry where
  file_name : String
  question : String
  response : String
  deriving DecidableEq

/-- The module state of chat4.py: the in-memory `message_history` list and
the content persisted in `message_history.json`. -/
structure HistState where
  message_history : List MessageEntry
  savedFile : List MessageEntry
  deriving DecidableEq

/-- chat4.py `save_message_history`: dump the in-memory list to the file. -/
def save_message_history (hs : HistState) : HistState :=
  { hs with savedFile := hs.message_history }

/-- chat4.py `store_message_history`: return without any change when an
entry with the same question and the same response already exists, else
append the new entry and save. -/
def store_message_history (question response file_name : String) (hs : HistState) :
    HistState :=
  if hs.message_history.any (fun e => decide (e.question = question ∧ e.response = response))
  then hs
  else save_message_history
    { hs with message_history := hs.message_history ++ [⟨file_name, question, response⟩] }

end Chat4

/-- Outcome of the external token stream of `ollama.chat(..., stream=True)`:
the increments produced before completion or failure, and whether the call
or the iteration over it raised (with `produced` the increments already
yielded at that point). -/
structure GenOutcome where
  produced : List String
  failed : Bool
  deriving DecidableEq

/-- The external world one request runs against: the outcome of the
embedding call (`none` means the call raised), each collection search
outcome (`none` means `get_collection` or `query` raised), and the
generation outcome. -/
structure World where
  embed : Option (List ℚ)
  search : String → Option Chat2.QueryResult
  gen : GenOutcome

/-- One external call made by the code, as recorded in a trace. -/
inductive Event where
  | embedCall (question : String)
  | searchCall (collection : String) (query_vec : List ℚ)
  | chatCall (top_chunks : List String) (question : String)
  deriving DecidableEq

/-- Whether an event is the embedding call. -/
def Event.isEmbed : Event → Bool
  | Event.embedCall _ => true
  | _ => false

/-- The per-collection query loop of chat2.py lines 34 to 37 (identically
chat4.py lines 82 to 85): query each collection in order, always with the
one shared embedding `v`; the first raising call aborts the loop, the
exception escaping to the surrounding handler.  Returns the collected
results (`none` when some call raised) and the trace of search calls
attempted. -/
def queryLoop (w : World) (v : List ℚ) :
    List String → Option (List Chat2.QueryResult) × List Event
  | [] => (some [], [])
  | c :: cs =>
    match w.search c with
    | none => (none, [Event.searchCall c v])
    | some r =>
      let rest := queryLoop w v cs
      (rest.1.map (fun rs => r :: rs), Event.searchCall c v :: rest.2)

/-- The same loop as run by chat4.py, which also records each collection
name next to its result. -/
def queryLoop4 (w : World) (v : List ℚ) :
    List String → Option (List Chat4.NamedResult) × List Event
  | [] => (some [], [])
  | c :: cs =>
    match w.search c with
    | none => (none, [Event.searchCall c v])
    | some r =>
      let rest := queryLoop4 w v cs
      (rest.1.map (fun rs => (⟨c, r⟩ : Chat4.NamedResult) :: rs),
       Event.searchCall c v :: rest.2)

/-- The accumulator `response += content` of chat4.py, run over the full
list of produced increments. -/
def joinedResponse (l : List String) : String := l.foldl (fun a b => a ++ b) ""

namespace Chat2

/-- chat2.py `get_chat_response`, run to exhaustion: the list of yielded
increments and the trace of external calls.  Every raise inside the `try`
is caught by the single `except`, which prints, yields `""` once and
returns; a generation failure mid-stream therefore yields the increments
already produced followed by one `""`. -/
def get_chat_response (question : String) (collections : List String) (w : World) :
    List String × List Event :=
  match w.embed with
  | none => ([""], [Event.embedCall question])
  | some v =>
    match queryLoop w v collections with
    | (none, evs) => ([""], Event.embedCall question :: evs)
    | (some rs, evs) =>
      let top_chunks := combine_and_select_top_chunks rs 7
      (w.gen.produced ++ (if w.gen.failed then [""] else []),
       Event.embedCall question :: evs ++ [Event.chatCall top_chunks question])

end Chat2

namespace Chat4

/-- chat4.py `get_chat_response`, run to exhaustion against `w` with the
module history state `hs`: yielded increments, the new history state and
the call trace.  On successful completion the accumulated response is
stored through `store_message_history` when the top file-name list is
non-empty; any raise is caught by the single `except`, which yields `""`
once and leaves the history state untouched. -/
def get_chat_response (question : String) (collections : List String) (w : World)
    (hs : HistState) : List String × HistState × List Event :=
  match w.embed with
  | none => ([""], hs, [Event.embedCall question])
  | some v =>
    match queryLoop4 w v collections with
    | (none, evs) => ([""], hs, Event.embedCall question :: evs)
    | (some rs, evs) =>
      let tc := combine_and_select_top_chunks rs 7
      if w.gen.failed then
        (w.gen.produced ++ [""], hs,
         Event.embedCall question :: evs ++ [Event.chatCall tc.1 question])
      else
        (w.gen.produced,
         (match tc.2 with
          | [] => hs
          | fn :: _ => store_message_history question (joinedResponse w.gen.produced) fn hs),
         Event.embedCall question :: evs ++ [Event.chatCall tc.1 question])

end Chat4

namespace Backend

/-- A conversation turn, one element of a conversation history. -/
structure Turn where
  role : String
  content : String
  deriving DecidableEq

/-- One document of the `sessions` chromadb collection. -/
structure SessionDoc where
  session_id : String
  conversation_history : List Turn
  deriving DecidableEq

/-- The contents of the `sessions` collection, in insertion order. -/
abbrev Store := List SessionDoc

/-- Document-store operation `session_collection.add_documents`: append
the given documents. -/
def add_documents (st : Store) (docs : List SessionDoc) : Store := st ++ docs

/-- Document-store operation `session_collection.get_documents` queried on
`session_id`: every document with that identifier, in store order. -/
def get_documents (st : Store) (sid : String) : List SessionDoc :=
  st.filter (fun d => d.session_id == sid)

/-- Document-store operation `session_collection.update_documents`:
replace every document whose `session_id` matches the given document. -/
def update_documents (st : Store) (doc : SessionDoc) : Store :=
  st.map (fun d => if d.session_id == doc.session_id then doc else d)

/-- backend2.py `create_session`, with the generated uuid passed in as
`sid`: persist an empty conversation history and return the identifier. -/
def create_session (st : Store) (sid : String) : Store × String :=
  (add_documents st [⟨sid, []⟩], sid)

/-- backend2.py `get_session`: the first matching document, if any. -/
def get_session (st : Store) (sid : String) : Option SessionDoc :=
  (get_documents st sid).head?

/-- backend2.py `update_session`: read the session, append the message to
its conversation history, write the document back. -/
def update_session (st : Store) (sid : String) (message : Turn) : Store :=
  match get_session st sid with
  | some s => update_documents st ⟨sid, s.conversation_history ++ [message]⟩
  | none => st

/-- The `/ask-question/` request: the `session-id` header and the body. -/
structure AskRequest where
  session_id : Option String
  question : String
  file_names : List String

/-- What the `/ask-question/` endpoint returns: an HTTPException, a JSON
error body, or a StreamingResponse wrapping the not yet consumed chat
generator. -/
inductive AskResponse where
  | httpError (status : ℕ) (detail : String)
  | jsonError (status : ℕ) (message : String)
  | stream (question : String) (file_names : List String)
  deriving DecidableEq

/-- The fixed string returned by backend2.py `generate_response`. -/
def placeholder_response : String :=
  "This is a placeholder response based on the conversation history."

/-- backend2.py `generate_response`: a placeholder that ignores the
conversation history (its body is the comment `Implement your response
generation logic here` followed by the fixed return). -/
def generate_response (conversation_history : List Turn) : String :=
  placeholder_response

/-- backend2.py `ask_question` up to returning the StreamingResponse (the
wrapped generator has not run yet): header and session validation, the
emptiness and registry checks, the per-name registry loop, the two
`update_session` calls with the user turn and the placeholder assistant
turn, then the stream.  `registry` is the `file_hash_map` key set. -/
def ask_question (st : Store) (registry : List String) (req : AskRequest) :
    Store × AskResponse :=
  match req.session_id with
  | none => (st, .httpError 400 "Session ID is required")
  | some sid =>
    match get_session st sid with
    | none => (st, .httpError 404 "Session not found")
    | some sess =>
      if req.question = "" ∨ req.file_names = [] then
        (st, .jsonError 400 "Question and file_names are required")
      else if registry = [] then
        (st, .jsonError 400 "No file uploaded")
      else
        match req.file_names.find? (fun fn => !(registry.contains fn)) with
        | some fn => (st, .jsonError 400 ("File not found: " ++ fn))
        | none =>
          let st1 := update_session st sid ⟨"user", req.question⟩
          let st2 := update_session st1 sid
            ⟨"assistant", generate_response sess.conversation_history⟩
          (st2, .stream req.question req.file_names)

/-- Every external call made over the whole life of an `/ask-question/`
request, consumption of the returned stream included: a validation error
returns before the generator is created, so no external call happens at
all; on the stream path the calls are those of the generator run. -/
def ask_calls (st : Store) (registry : List String) (req : AskRequest) (w : World) :
    List Event :=
  match (ask_question st registry req).2 with
  | .stream q fns => (Chat2.get_chat_response q fns w).2
  | _ => []

end Backend

namespace Backend

/-- Helper: a map that rewrites only documents with identifier `sid` leaves
a list without that identifier unchanged. -/
theorem map_update_eq_self (l : List SessionDoc) (sid : String) (doc : SessionDoc)
    (hl : ∀ d ∈ l, d.session_id ≠ sid) :
    l.map (fun d => if d.session_id == sid then doc else d) = l := by
  induction l with
  | nil => rfl
  | cons a as ih =>
    have ha : a.session_id ≠ sid := hl a (List.mem_cons_self a as)
    have ih' := ih (fun d hd => hl d (List.mem_cons_of_mem a hd))
    simp only [List.map_cons] at ih' ⊢
    simp [ha]
    simpa using ih'

/-- Helper: reading a session out of a store in which exactly the middle
document carries the identifier. -/
theorem get_session_middle (l1 l2 : List SessionDoc) (sid : String) (h : List Turn)
    (h1 : ∀ d ∈ l1, d.session_id ≠ sid) :
    get_session (l1 ++ ⟨sid, h⟩ :: l2) sid = some ⟨sid, h⟩ := by
  unfold get_session get_documents
  rw [List.filter_append]
  have hf : l1.filter (fun d => d.session_id == sid) = [] := by
    rw [List.filter_eq_nil_iff]
    intro d hd
    simpa using h1 d hd
  rw [hf]
  simp

/-- Helper: appending one turn through `update_session` on such a store
rewrites exactly the middle document. -/
theorem update_session_middle (l1 l2 : List SessionDoc) (sid : String) (h : List Turn)
    (t : Turn) (h1 : ∀ d ∈ l1, d.session_id ≠ sid) (h2 : ∀ d ∈ l2, d.session_id ≠ sid) :
    update_session (l1 ++ ⟨sid, h⟩ :: l2) sid t = l1 ++ ⟨sid, h ++ [t]⟩ :: l2 := by
  unfold update_session
  rw [get_session_middle l1 l2 sid h h1]
  dsimp only [update_documents]
  rw [List.map_append, List.map_cons]
  rw [map_update_eq_self l1 sid _ h1, map_update_eq_self l2 sid _ h2]
  simp

/-- Helper: folding a list of turns through `update_session` appends them
in order to the middle document. -/
theorem foldl_update_session (l1 l2 : List SessionDoc) (sid : String)
    (h1 : ∀ d ∈ l1, d.session_id ≠ sid) (h2 : ∀ d ∈ l2, d.session_id ≠ sid) :
    ∀ (ts : List Turn) (h : List Turn),
      ts.foldl (fun s t => update_session s sid t) (l1 ++ ⟨sid, h⟩ :: l2)
        = l1 ++ ⟨sid, h ++ ts⟩ :: l2 := by
  intro ts
  induction ts with
  | nil => intro h; simp
  | cons t ts ih =>
    intro h
    rw [List.foldl_cons, update_session_middle l1 l2 sid h t h1 h2, ih (h ++ [t])]
    simp

end Backend

/-- C7: appending N turns sequentially through the session store and then
reading the session back yields exactly those N turns in order.  The
freshness hypothesis models the collision-resistant uuid of
`create_session`. -/
theorem session_append_roundtrip (st : Backend.Store) (sid : String)
    (turns : List Backend.Turn) (hfresh : ∀ d ∈ st, d.session_id ≠ sid) :
    Backend.get_session
      (turns.foldl (fun s t => Backend.update_session s sid t)
        (Backend.create_session st sid).1) sid
      = some ⟨sid, turns⟩ := by
  have hcr : (Backend.create_session st sid).1 = st ++ (⟨sid, []⟩ : Backend.SessionDoc) :: [] := by
    simp [Backend.create_session, Backend.add_documents]
  rw [hcr, Backend.foldl_update_session st [] sid hfresh (by simp) turns []]
  simpa using Backend.get_session_middle st [] sid turns hfresh

/-- Witness for C7 at a concrete store, session and pair of turns. -/
theorem session_append_roundtrip_w :
    (∀ d ∈ ([⟨"other", []⟩] : Backend.Store), d.session_id ≠ "s1") ∧
    Backend.get_session
      (([⟨"user", "q"⟩, ⟨"assistant", "a"⟩] : List Backend.Turn).foldl
        (fun s t => Backend.update_session s "s1" t)
        (Backend.create_session [⟨"other", []⟩] "s1").1) "s1"
      = some ⟨"s1", [⟨"user", "q"⟩, ⟨"assistant", "a"⟩]⟩ :=
  ⟨by decide,
   session_append_roundtrip [⟨"other", []⟩] "s1" [⟨"user", "q"⟩, ⟨"assistant", "a"⟩]
     (by decide)⟩

namespace Chat4

/-- Helper: `store_message_history` is the identity as soon as some entry
with the same question and response is present. -/
theorem store_skips_duplicate (q r fn : String) (hs : HistState)
    (h : ∃ e ∈ hs.message_history, e.question = q ∧ e.response = r) :
    store_message_history q r fn hs = hs := by
  have hab : hs.message_history.any
      (fun e => decide (e.question = q ∧ e.response = r)) = true := by
    rw [List.any_eq_true]
    rcases h with ⟨e, he, h1, h2⟩
    exact ⟨e, he, by simp [h1, h2]⟩
  unfold store_message_history
  rw [if_pos hab]

/-- Helper: after any `store_message_history` call an entry with the given
question and response is present. -/
theorem store_mem (q r fn : String) (hs : HistState) :
    ∃ e ∈ (store_message_history q r fn hs).message_history,
      e.question = q ∧ e.response = r := by
  unfold store_message_history
  split
  · next hcond =>
    rcases List.any_eq_true.mp hcond with ⟨e, he, hpe⟩
    exact ⟨e, he, of_decide_eq_true hpe⟩
  · exact ⟨⟨fn, q, r⟩, by simp [save_message_history], rfl, rfl⟩

end Chat4

/-- C10: storing is idempotent on the (question, response) pair.  If an
entry with the same question and response already exists anywhere in the
history, a store call leaves the state (in-memory history and persisted
file) unchanged; in particular a second store call after a first one with
the same pair is a no-op. -/
theorem store_message_history_idem (q r fn fn2 : String) (hs : Chat4.HistState) :
    (∀ _h : ∃ e ∈ hs.message_history, e.question = q ∧ e.response = r,
        Chat4.store_message_history q r fn hs = hs) ∧
    Chat4.store_message_history q r fn2 (Chat4.store_message_history q r fn hs)
      = Chat4.store_message_history q r fn hs :=
  ⟨fun h => Chat4.store_skips_duplicate q r fn hs h,
   Chat4.store_skips_duplicate q r fn2 _ (Chat4.store_mem q r fn hs)⟩

/-- Witness for C10 at a concrete history state holding the entry. -/
theorem store_message_history_idem_w :
    (∃ e ∈ (⟨[⟨"f", "q", "r"⟩], [⟨"f", "q", "r"⟩]⟩ : Chat4.HistState).message_history,
        e.question = "q" ∧ e.response = "r") ∧
    Chat4.store_message_history "q" "r" "g"
        (⟨[⟨"f", "q", "r"⟩], [⟨"f", "q", "r"⟩]⟩ : Chat4.HistState)
      = ⟨[⟨"f", "q", "r"⟩], [⟨"f", "q", "r"⟩]⟩ :=
  ⟨by decide,
   (store_message_history_idem "q" "r" "g" "g2"
       (⟨[⟨"f", "q", "r"⟩], [⟨"f", "q", "r"⟩]⟩ : Chat4.HistState)).1 (by decide)⟩

namespace Chat2

/-- Helper: under the pairing well-formedness of the claim (each result a
list of pairs, so equally long distance and document lists), flattening
yields exactly the total number of fragments. -/
theorem combineTriples_length (rl : List QueryResult)
    (h : ∀ r ∈ rl, r.distances.length = r.documents.length) :
    (combineTriples rl).length = totalFragments rl := by
  induction rl with
  | nil => rfl
  | cons r rs ih =>
    have hr := h r (List.mem_cons_self r rs)
    have ih' := ih (fun x hx => h x (List.mem_cons_of_mem r hx))
    simp [combineTriples, totalFragments, List.length_zip, hr] at ih' ⊢
    simpa [combineTriples, totalFragments] using ih'

end Chat2

/-- C1: for every merger input in which each collection result is a list of
(distance, text) pairs, in any order, the output has length
`min top_n (total fragments)` (the Python default for `top_n` is 7), the
underlying selected prefix is sorted ascending by distance, and the output
consists exactly of the texts of that prefix. -/
theorem merger_top_k (rl : List Chat2.QueryResult) (top_n : ℕ)
    (h : ∀ r ∈ rl, r.distances.length = r.documents.length) :
    (Chat2.combine_and_select_top_chunks rl top_n).length
        = min top_n (Chat2.totalFragments rl) ∧
    List.Sorted distLE ((Chat2.combinedSorted rl).take top_n) ∧
    Chat2.combine_and_select_top_chunks rl top_n
        = ((Chat2.combinedSorted rl).take top_n).map Prod.snd := by
  refine ⟨?_, ?_, rfl⟩
  · unfold Chat2.combine_and_select_top_chunks
    rw [List.length_map, List.length_take]
    unfold Chat2.combinedSorted
    rw [List.length_insertionSort, Chat2.combineTriples_length rl h]
  · exact (List.sorted_insertionSort distLE (Chat2.combineTriples rl)).sublist
      (List.take_sublist top_n (Chat2.combinedSorted rl))

/-- Witness for C1: two collections, five fragments in scrambled order,
default K of 7. -/
theorem merger_top_k_w :
    (∀ r ∈ ([⟨[3, 1, 2], ["C", "A", "B"]⟩, ⟨[5, 4], ["E", "D"]⟩] :
        List Chat2.QueryResult), r.distances.length = r.documents.length) ∧
    ((Chat2.combine_and_select_top_chunks
          [⟨[3, 1, 2], ["C", "A", "B"]⟩, ⟨[5, 4], ["E", "D"]⟩] 7).length
        = min 7 (Chat2.totalFragments [⟨[3, 1, 2], ["C", "A", "B"]⟩, ⟨[5, 4], ["E", "D"]⟩]) ∧
      List.Sorted distLE
        ((Chat2.combinedSorted [⟨[3, 1, 2], ["C", "A", "B"]⟩, ⟨[5, 4], ["E", "D"]⟩]).take 7) ∧
      Chat2.combine_and_select_top_chunks [⟨[3, 1, 2], ["C", "A", "B"]⟩, ⟨[5, 4], ["E", "D"]⟩] 7
        = ((Chat2.combinedSorted [⟨[3, 1, 2], ["C", "A", "B"]⟩, ⟨[5, 4], ["E", "D"]⟩]).take 7).map
            Prod.snd) :=
  ⟨by decide,
   merger_top_k [⟨[3, 1, 2], ["C", "A", "B"]⟩, ⟨[5, 4], ["E", "D"]⟩] 7 (by decide)⟩

/-- C2: the merge is tie-stable.  If two fragments with equal distance
occur in the flattened input with the first-seen collection first (stated
as the two-element list being a sublist of the flattened input), they
occur in the same relative order in the sorted merge; the returned output
is the text projection of a prefix of that sorted merge, so ties are never
reordered by any secondary key. -/
theorem merger_stable (rl : List Chat2.QueryResult) (d : ℚ) (ta tb : String)
    (h : List.Sublist [(d, ta), (d, tb)] (Chat2.combineTriples rl)) :
    List.Sublist [(d, ta), (d, tb)] (Chat2.combinedSorted rl) ∧
    ∀ top_n, Chat2.combine_and_select_top_chunks rl top_n
        = ((Chat2.combinedSorted rl).take top_n).map Prod.snd :=
  ⟨List.pair_sublist_insertionSort (le_refl d) h, fun _ => rfl⟩

/-- Witness for C2: two collections holding fragments at the same
distance; the first-seen collection contributes the earlier element. -/
theorem merger_stable_w :
    List.Sublist [((1 : ℚ), "A"), ((1 : ℚ), "B")]
      (Chat2.combineTriples [⟨[0, 1], ["Z", "A"]⟩, ⟨[1], ["B"]⟩]) ∧
    (List.Sublist [((1 : ℚ), "A"), ((1 : ℚ), "B")]
        (Chat2.combinedSorted [⟨[0, 1], ["Z", "A"]⟩, ⟨[1], ["B"]⟩]) ∧
      ∀ top_n, Chat2.combine_and_select_top_chunks [⟨[0, 1], ["Z", "A"]⟩, ⟨[1], ["B"]⟩] top_n
          = ((Chat2.combinedSorted [⟨[0, 1], ["Z", "A"]⟩, ⟨[1], ["B"]⟩]).take top_n).map
              Prod.snd) :=
  ⟨by decide,
   merger_stable [⟨[0, 1], ["Z", "A"]⟩, ⟨[1], ["B"]⟩] 1 "A" "B" (by decide)⟩

/-- Helper: every event the query loop records is a search call carrying
the one shared embedding vector `v`. -/
theorem queryLoop_trace_search (w : World) (v : List ℚ) :
    ∀ cols, ∀ e ∈ (queryLoop w v cols).2, ∃ c, e = Event.searchCall c v := by
  intro cols
  induction cols with
  | nil => intro e he; simp [queryLoop] at he
  | cons c cs ih =>
    intro e he
    rw [queryLoop] at he
    cases hc : w.search c with
    | none =>
      rw [hc] at he
      simp at he
      exact ⟨c, he⟩
    | some r =>
      rw [hc] at he
      simp at he
      rcases he with he | he
      · exact ⟨c, he⟩
      · exact ih e he

/-- Helper: in particular no event of the query loop is the embedding
call. -/
theorem queryLoop_trace_no_embed (w : World) (v : List ℚ) (cols : List String) :
    ∀ e ∈ (queryLoop w v cols).2, Event.isEmbed e = false := by
  intro e he
  rcases queryLoop_trace_search w v cols e he with ⟨c, rfl⟩
  rfl

/-- C8: over the whole generator run, the embedding call happens exactly
once, and every similarity-search call carries exactly the vector that the
one embedding call returned; the embedding is never recomputed per
collection. -/
theorem embedding_computed_once (q : String) (cols : List String) (w : World) :
    ((Chat2.get_chat_response q cols w).2).countP Event.isEmbed = 1 ∧
    ∀ c v, Event.searchCall c v ∈ (Chat2.get_chat_response q cols w).2 →
      w.embed = some v := by
  unfold Chat2.get_chat_response
  cases hemb : w.embed with
  | none =>
    refine ⟨by simp [Event.isEmbed], ?_⟩
    intro c v hv
    simp at hv
  | some v0 =>
    dsimp only
    have hzero : ∀ evs : List Event,
        (∀ e ∈ evs, Event.isEmbed e = false) → evs.countP Event.isEmbed = 0 :=
      fun evs h => List.countP_eq_zero.mpr (fun e he => by simp [h e he])
    rcases hql : queryLoop w v0 cols with ⟨o, evs⟩
    have hevs : ∀ e ∈ evs, Event.isEmbed e = false := by
      intro e he
      exact queryLoop_trace_no_embed w v0 cols e (by rw [hql]; exact he)
    have hsearch : ∀ c v, Event.searchCall c v ∈ evs → some v0 = some v := by
      intro c v hv
      rcases queryLoop_trace_search w v0 cols (Event.searchCall c v)
          (by rw [hql]; exact hv) with ⟨c2, hc2⟩
      injection hc2 with hc hv2
      rw [hv2]
    cases o with
    | none =>
      refine ⟨?_, ?_⟩
      · simp [List.countP_cons, Event.isEmbed, hzero evs hevs]
      · intro c v hv
        rcases List.mem_cons.mp hv with h | h
        · simp at h
        · exact hsearch c v h
    | some rs =>
      refine ⟨?_, ?_⟩
      · simp [List.countP_cons, List.countP_append, Event.isEmbed, hzero evs hevs]
      · intro c v hv
        rcases List.mem_cons.mp hv with h | h
        · simp at h
        · rcases List.mem_append.mp h with h2 | h2
          · exact hsearch c v h2
          · simp at h2

/-- Witness for C8: a concrete world in which one collection is searched;
the recorded search call carries the embedding the world returned. -/
theorem embedding_computed_once_w :
    Event.searchCall "doc" [1]
        ∈ (Chat2.get_chat_response "q" ["doc"]
            ⟨some [1], fun c => if c = "doc" then some ⟨[1], ["frag"]⟩ else none,
             ⟨["Hi"], true⟩⟩).2 ∧
    (⟨some [1], fun c => if c = "doc" then some ⟨[1], ["frag"]⟩ else none,
       ⟨["Hi"], true⟩⟩ : World).embed = some [1] :=
  ⟨by decide,
   (embedding_computed_once "q" ["doc"]
       ⟨some [1], fun c => if c = "doc" then some ⟨[1], ["frag"]⟩ else none,
        ⟨["Hi"], true⟩⟩).2 "doc" [1] (by decide)⟩

/-- C9 (amended): the chat2 generator never surfaces an error.  When the
embedding call or any search call fails, the run yields exactly one empty
string; when generation fails mid-stream, the run yields the increments
already produced followed by exactly one empty string; in every case the
generator terminates normally, never propagating the exception. -/
theorem chat_generator_failure_outputs (q : String) (cols : List String) (w : World) :
    (w.embed = none → (Chat2.get_chat_response q cols w).1 = [""]) ∧
    (∀ v, w.embed = some v → (queryLoop w v cols).1 = none →
        (Chat2.get_chat_response q cols w).1 = [""]) ∧
    (∀ v rs, w.embed = some v → (queryLoop w v cols).1 = some rs → w.gen.failed = true →
        (Chat2.get_chat_response q cols w).1 = w.gen.produced ++ [""]) := by
  refine ⟨?_, ?_, ?_⟩
  · intro h
    unfold Chat2.get_chat_response
    rw [h]
  · intro v hv hq
    unfold Chat2.get_chat_response
    rw [hv]
    dsimp only
    rcases hql : queryLoop w v cols with ⟨o, evs⟩
    rw [hql] at hq
    dsimp at hq
    subst hq
    rfl
  · intro v rs hv hq hfail
    unfold Chat2.get_chat_response
    rw [hv]
    dsimp only
    rcases hql : queryLoop w v cols with ⟨o, evs⟩
    rw [hql] at hq
    dsimp at hq
    subst hq
    simp [hfail]

/-- A concrete world whose single-collection search succeeds and whose
generation fails after producing one increment. -/
def wMid : World :=
  ⟨some [1], fun c => if c = "doc" then some ⟨[1], ["frag"]⟩ else none, ⟨["Hi"], true⟩⟩

/-- C9 counterexample: with a mid-stream generation failure the generator
yields the already-produced increment and then the empty string — two
increments, not exactly one empty-string increment, so the failure is
distinguishable from an empty answer at the interface. -/
theorem chat_generator_two_increments :
    wMid.gen.failed = true ∧
    (Chat2.get_chat_response "q" ["doc"] wMid).1 = ["Hi", ""] ∧
    (Chat2.get_chat_response "q" ["doc"] wMid).1 ≠ [""] := by decide

/-- Witness for the amended C9 at the concrete mid-stream failure world. -/
theorem chat_generator_failure_outputs_w :
    wMid.embed = some [1] ∧
    (queryLoop wMid [1] ["doc"]).1 = some [⟨[1], ["frag"]⟩] ∧
    wMid.gen.failed = true ∧
    (Chat2.get_chat_response "q" ["doc"] wMid).1 = wMid.gen.produced ++ [""] :=
  ⟨by decide, by decide, by decide,
   (chat_generator_failure_outputs "q" ["doc"] wMid).2.2 [1] [⟨[1], ["frag"]⟩]
     (by decide) (by decide) (by decide)⟩

/-- A concrete world whose single-collection search succeeds and whose
generation fails after producing the text of the specification scenario. -/
def wC4 : World :=
  ⟨some [1], fun c => if c = "doc" then some ⟨[1], ["ctx"]⟩ else none,
   ⟨["The capital is"], true⟩⟩

/-- C4 counterexample: generation fails after producing the text; the text
is yielded to the caller but the message-history state is left completely
unchanged — no entry holding the produced text is persisted and nothing is
tagged as a truncated response. -/
theorem chat4_discards_produced_text :
    (Chat4.get_chat_response "q" ["doc"] wC4 ⟨[], []⟩).1 = ["The capital is", ""] ∧
    (Chat4.get_chat_response "q" ["doc"] wC4 ⟨[], []⟩).2.1 = (⟨[], []⟩ : Chat4.HistState) ∧
    ¬ ∃ e ∈ (Chat4.get_chat_response "q" ["doc"] wC4 ⟨[], []⟩).2.1.message_history,
        e.response = "The capital is" := by decide

/-- C4 (amended): when generation fails partway, the already-produced text
is yielded to the caller followed by one empty string, but it is not
persisted: the message-history state is unchanged, so the produced text is
discarded from history and nothing marks it as a truncated response. -/
theorem chat4_midstream_failure (q : String) (cols : List String) (w : World)
    (hs : Chat4.HistState) (v : List ℚ) (rs : List Chat4.NamedResult) (evs : List Event)
    (hemb : w.embed = some v)
    (hok : queryLoop4 w v cols = (some rs, evs))
    (hfail : w.gen.failed = true) :
    (Chat4.get_chat_response q cols w hs).1 = w.gen.produced ++ [""] ∧
    (Chat4.get_chat_response q cols w hs).2.1 = hs := by
  unfold Chat4.get_chat_response
  rw [hemb]
  dsimp only
  rw [hok]
  dsimp only
  simp [hfail]

/-- Witness for the amended C4 at the concrete failing world. -/
theorem chat4_midstream_failure_w :
    wC4.embed = some [1] ∧
    queryLoop4 wC4 [1] ["doc"]
        = (some [⟨"doc", ⟨[1], ["ctx"]⟩⟩], [Event.searchCall "doc" [1]]) ∧
    wC4.gen.failed = true ∧
    ((Chat4.get_chat_response "q2" ["doc"] wC4 ⟨[], []⟩).1 = wC4.gen.produced ++ [""] ∧
     (Chat4.get_chat_response "q2" ["doc"] wC4 ⟨[], []⟩).2.1 = (⟨[], []⟩ : Chat4.HistState)) :=
  ⟨by decide, by decide, by decide,
   chat4_midstream_failure "q2" ["doc"] wC4 ⟨[], []⟩ [1] [⟨"doc", ⟨[1], ["ctx"]⟩⟩]
     [Event.searchCall "doc" [1]] (by decide) (by decide) (by decide)⟩

/-- The world of the end-to-end scenario of the specification: retrieval
succeeds with one fragment and generation produces the answer text. -/
def wC3 : World :=
  ⟨some [1],
   fun c =>
     if c = "geo_doc" then some ⟨[1 / 50], ["Paris is the capital of France."]⟩ else none,
   ⟨["Paris."], false⟩⟩

/-- C3: on a successful end-to-end question the session history does gain
exactly the user turn followed by one assistant turn, but the assistant
turn content is the fixed placeholder string of `generate_response`,
appended before the returned stream is consumed; it differs from the
accumulated generated text, which is never written to the session. -/
theorem assistant_turn_placeholder :
    Backend.get_session
        (Backend.ask_question [⟨"s1", []⟩] ["geo_doc"]
          ⟨some "s1", "What is the capital of France?", ["geo_doc"]⟩).1 "s1"
      = some ⟨"s1", [⟨"user", "What is the capital of France?"⟩,
                     ⟨"assistant", Backend.placeholder_response⟩]⟩ ∧
    (Backend.ask_question [⟨"s1", []⟩] ["geo_doc"]
        ⟨some "s1", "What is the capital of France?", ["geo_doc"]⟩).2
      = Backend.AskResponse.stream "What is the capital of France?" ["geo_doc"] ∧
    (Chat2.get_chat_response "What is the capital of France?" ["geo_doc"] wC3).1
      = ["Paris."] ∧
    joinedResponse ["Paris."] ≠ Backend.placeholder_response := by decide

/-- A concrete world in which every similarity-search call fails. -/
def wFailAll : World := ⟨some [1], fun _ => none, ⟨[], false⟩⟩

/-- C5 counterexample: a request in which every targeted collection search
fails is not failed with any error and the history does gain new turns:
the endpoint returns a stream that yields one empty string, and the
session history gains the user turn and the placeholder assistant turn. -/
theorem all_search_fail_history_grows :
    (Backend.ask_question [⟨"s1", []⟩] ["a", "b"] ⟨some "s1", "q", ["a", "b"]⟩).2
        = Backend.AskResponse.stream "q" ["a", "b"] ∧
    (Backend.ask_question [⟨"s1", []⟩] ["a", "b"] ⟨some "s1", "q", ["a", "b"]⟩).1
        ≠ [⟨"s1", []⟩] ∧
    Backend.get_session
        (Backend.ask_question [⟨"s1", []⟩] ["a", "b"] ⟨some "s1", "q", ["a", "b"]⟩).1 "s1"
        = some ⟨"s1", [⟨"user", "q"⟩, ⟨"assistant", Backend.placeholder_response⟩]⟩ ∧
    (queryLoop wFailAll [1] ["a", "b"]).1 = none ∧
    (Chat2.get_chat_response "q" ["a", "b"] wFailAll).1 = [""] := by decide

/-- C5 (amended): when the embedding succeeds and some targeted collection
search fails (in particular when all of them fail), the exception is
swallowed inside the generator: the endpoint still returns a stream, that
stream yields exactly one empty string instead of surfacing any
retrieval error, and the session history still gains the user turn and the
placeholder assistant turn appended before the stream runs. -/
theorem search_failure_swallowed (l1 l2 : List Backend.SessionDoc) (sid : String)
    (hist : List Backend.Turn) (registry : List String) (req : Backend.AskRequest)
    (w : World) (v : List ℚ)
    (h1 : ∀ d ∈ l1, d.session_id ≠ sid) (h2 : ∀ d ∈ l2, d.session_id ≠ sid)
    (hsid : req.session_id = some sid)
    (hq : ¬ req.question = "") (hf : ¬ req.file_names = [])
    (hreg : ¬ registry = [])
    (hall : ∀ fn ∈ req.file_names, registry.contains fn = true)
    (hemb : w.embed = some v)
    (hfail : (queryLoop w v req.file_names).1 = none) :
    (Backend.ask_question (l1 ++ ⟨sid, hist⟩ :: l2) registry req).2
        = Backend.AskResponse.stream req.question req.file_names ∧
    Backend.get_session (Backend.ask_question (l1 ++ ⟨sid, hist⟩ :: l2) registry req).1 sid
        = some ⟨sid, hist ++ [⟨"user", req.question⟩,
                              ⟨"assistant", Backend.placeholder_response⟩]⟩ ∧
    (Chat2.get_chat_response req.question req.file_names w).1 = [""] := by
  have hcond : ¬ (req.question = "" ∨ req.file_names = []) := by
    rintro (h | h)
    · exact hq h
    · exact hf h
  have hfind : req.file_names.find? (fun fn => !(registry.contains fn)) = none := by
    apply List.find?_eq_none.mpr
    intro x hx
    simpa using hall x hx
  have hask : Backend.ask_question (l1 ++ ⟨sid, hist⟩ :: l2) registry req
      = (l1 ++ (⟨sid, hist ++ [⟨"user", req.question⟩,
            ⟨"assistant", Backend.placeholder_response⟩]⟩ : Backend.SessionDoc) :: l2,
         Backend.AskResponse.stream req.question req.file_names) := by
    unfold Backend.ask_question
    rw [hsid]
    dsimp only
    rw [Backend.get_session_middle l1 l2 sid hist h1]
    dsimp only
    rw [if_neg hcond, if_neg hreg, hfind]
    dsimp only
    rw [Backend.update_session_middle l1 l2 sid hist _ h1 h2]
    rw [Backend.update_session_middle l1 l2 sid
      (hist ++ [(⟨"user", req.question⟩ : Backend.Turn)])
      (⟨"assistant", Backend.generate_response hist⟩ : Backend.Turn) h1 h2]
    simp [Backend.generate_response]
  refine ⟨by rw [hask], ?_, ?_⟩
  · rw [hask]
    exact Backend.get_session_middle l1 l2 sid _ h1
  · unfold Chat2.get_chat_response
    rw [hemb]
    dsimp only
    rcases hql : queryLoop w v req.file_names with ⟨o, evs⟩
    rw [hql] at hfail
    dsimp at hfail
    subst hfail
    rfl

/-- Witness for the amended C5: one registered session, two registered
collections, both searches failing. -/
theorem search_failure_swallowed_w :
    ((∀ d ∈ ([] : List Backend.SessionDoc), d.session_id ≠ "s1") ∧
     (⟨some "s1", "q", ["a", "b"]⟩ : Backend.AskRequest).session_id = some "s1" ∧
     ¬ (⟨some "s1", "q", ["a", "b"]⟩ : Backend.AskRequest).question = "" ∧
     ¬ (⟨some "s1", "q", ["a", "b"]⟩ : Backend.AskRequest).file_names = [] ∧
     ¬ (["a", "b"] : List String) = [] ∧
     (∀ fn ∈ (⟨some "s1", "q", ["a", "b"]⟩ : Backend.AskRequest).file_names,
        (["a", "b"] : List String).contains fn = true) ∧
     wFailAll.embed = some [1] ∧
     (queryLoop wFailAll [1]
        (⟨some "s1", "q", ["a", "b"]⟩ : Backend.AskRequest).file_names).1 = none) ∧
    ((Backend.ask_question ([] ++ (⟨"s1", []⟩ : Backend.SessionDoc) :: []) ["a", "b"]
          ⟨some "s1", "q", ["a", "b"]⟩).2
        = Backend.AskResponse.stream "q" ["a", "b"] ∧
     Backend.get_session
        (Backend.ask_question ([] ++ (⟨"s1", []⟩ : Backend.SessionDoc) :: []) ["a", "b"]
          ⟨some "s1", "q", ["a", "b"]⟩).1 "s1"
        = some ⟨"s1", [] ++ [⟨"user", "q"⟩, ⟨"assistant", Backend.placeholder_response⟩]⟩ ∧
     (Chat2.get_chat_response "q" ["a", "b"] wFailAll).1 = [""]) :=
  ⟨⟨by decide, by decide, by decide, by decide, by decide, by decide, by decide, by decide⟩,
   search_failure_swallowed [] [] "s1" [] ["a", "b"] ⟨some "s1", "q", ["a", "b"]⟩
     wFailAll [1] (by decide) (by decide) (by decide) (by decide) (by decide) (by decide)
     (by decide) (by decide) (by decide)⟩

/-- C6 counterexample: with an empty registry, a question referencing an
unregistered collection name is rejected with the generic error message,
not with an error naming the offending collection. -/
theorem unknown_collection_generic_error :
    (Backend.ask_question [⟨"s1", []⟩] [] ⟨some "s1", "q", ["a"]⟩).2
        = Backend.AskResponse.jsonError 400 "No file uploaded" ∧
    (Backend.ask_question [⟨"s1", []⟩] [] ⟨some "s1", "q", ["a"]⟩).2
        ≠ Backend.AskResponse.jsonError 400 ("File not found: " ++ "a") := by decide

/-- Helper: the per-name registry loop stops at the first name that is not
registered. -/
theorem find_first_missing (registry : List String) :
    ∀ (pre : List String) (fn : String) (post : List String),
      (∀ g ∈ pre, registry.contains g = true) → registry.contains fn = false →
      (pre ++ fn :: post).find? (fun g => !(registry.contains g)) = some fn := by
  intro pre
  induction pre with
  | nil =>
    intro fn post hpre hfn
    rw [List.nil_append]
    exact List.find?_cons_of_pos post (by simpa using hfn)
  | cons g gs ih =>
    intro fn post hpre hfn
    rw [List.cons_append]
    rw [List.find?_cons_of_neg _ (by simpa using hpre g (List.mem_cons_self g gs))]
    exact ih fn post (fun x hx => hpre x (List.mem_cons_of_mem g hx)) hfn

/-- C6 (amended): given a valid session, a non-empty question and a
non-empty registry, a question referencing an unregistered collection name
fails with the error naming the first offending name, leaves the store
unchanged, and performs no external call at all — in particular no
embedding computation and no similarity search.  (With an empty registry
the code instead fails with the generic message of the counterexample,
likewise before any external call.) -/
theorem unknown_collection_fail_fast (st : Backend.Store) (registry : List String)
    (req : Backend.AskRequest) (sid : String) (sess : Backend.SessionDoc)
    (pre post : List String) (fn : String)
    (hsid : req.session_id = some sid)
    (hsess : Backend.get_session st sid = some sess)
    (hq : ¬ req.question = "")
    (hreg : ¬ registry = [])
    (hsplit : req.file_names = pre ++ fn :: post)
    (hpre : ∀ g ∈ pre, registry.contains g = true)
    (hfn : registry.contains fn = false) :
    (Backend.ask_question st registry req).2
        = Backend.AskResponse.jsonError 400 ("File not found: " ++ fn) ∧
    (Backend.ask_question st registry req).1 = st ∧
    ∀ w, Backend.ask_calls st registry req w = [] := by
  have hne : ¬ req.file_names = [] := by
    rw [hsplit]
    simp
  have hcond : ¬ (req.question = "" ∨ req.file_names = []) := by
    rintro (h | h)
    · exact hq h
    · exact hne h
  have hask : Backend.ask_question st registry req
      = (st, Backend.AskResponse.jsonError 400 ("File not found: " ++ fn)) := by
    unfold Backend.ask_question
    rw [hsid]
    dsimp only
    rw [hsess]
    dsimp only
    rw [if_neg hcond, if_neg hreg, hsplit,
      find_first_missing registry pre fn post hpre hfn]
  refine ⟨by rw [hask], by rw [hask], ?_⟩
  intro w
  unfold Backend.ask_calls
  rw [hask]

/-- Witness for the amended C6: the second requested name is the first one
missing from the registry. -/
theorem unknown_collection_fail_fast_w :
    (Backend.get_session [⟨"s1", []⟩] "s1" = some ⟨"s1", []⟩ ∧
     (⟨some "s1", "q", ["a", "x"]⟩ : Backend.AskRequest).file_names = ["a"] ++ "x" :: [] ∧
     (∀ g ∈ (["a"] : List String), (["a"] : List String).contains g = true) ∧
     (["a"] : List String).contains "x" = false) ∧
    ((Backend.ask_question [⟨"s1", []⟩] ["a"] ⟨some "s1", "q", ["a", "x"]⟩).2
        = Backend.AskResponse.jsonError 400 ("File not found: " ++ "x") ∧
     (Backend.ask_question [⟨"s1", []⟩] ["a"] ⟨some "s1", "q", ["a", "x"]⟩).1
        = [⟨"s1", []⟩] ∧
     Backend.ask_calls [⟨"s1", []⟩] ["a"] ⟨some "s1", "q", ["a", "x"]⟩ wMid = []) :=
  ⟨⟨by decide, by decide, by decide, by decide⟩,
   (unknown_collection_fail_fast [⟨"s1", []⟩] ["a"] ⟨some "s1", "q", ["a", "x"]⟩ "s1"
       ⟨"s1", []⟩ ["a"] [] "x" (by decide) (by decide) (by decide) (by decide) (by decide)
       (by decide) (by decide)).1,
   (unknown_collection_fail_fast [⟨"s1", []⟩] ["a"] ⟨some "s1", "q", ["a", "x"]⟩ "s1"
       ⟨"s1", []⟩ ["a"] [] "x" (by decide) (by decide) (by decide) (by decide) (by decide)
       (by decide) (by decide)).2.1,
   (unknown_collection_fail_fast [⟨"s1", []⟩] ["a"] ⟨some "s1", "q", ["a", "x"]⟩ "s1"
       ⟨"s1", []⟩ ["a"] [] "x" (by decide) (by decide) (by decide) (by decide) (by decide)
       (by decide) (by decide)).2.2 wMid⟩
